import Mathlib

/-!
Shallow embedding of the user-directory service of the repository
(`mongo-docker/app`): the Pydantic data model (`models.py`), the service
layer (`services.py`), the resource router (`app/routers.py`) and the
fault-containment middleware (`app/middleware.py`, `app/main.py`).

Conventions of the embedding:
* the Mongo collection is a `Store`: an association list of
  `(objectId, document)` pairs in insertion order plus a fresh-id counter;
  `insert_one` appends, `find_one` scans in natural order, `update_one`
  and `delete_one` act on the first matching document;
* BSON object ids are natural numbers; their string form (`str(oid)` /
  `ObjectId(s)` of the external bson codec) is modelled by a decimal
  codec: `oidToString` renders, `String.toNat?` parses, and a parse
  failure stands for the `InvalidId` exception `ObjectId` raises;
* each call to `datetime.utcnow()` is an explicit `Nat` parameter of the
  operation that performs it, so theorems quantify over all clock
  behaviours and clock assumptions are explicit hypotheses;
* `async` functions become pure functions with explicit store passing;
  a Python exception escaping a function is `Except.error`.
-/

/-- Status enumeration of `models.py` (`pattern="^(active|inactive|suspended)$"`). -/
inductive UserStatus where
  | active
  | inactive
  | suspended
deriving DecidableEq

/-- A stored user document: the fields `insert_one` receives in `create_user`. -/
structure UserDoc where
  name : String
  email : String
  age : Option Nat
  status : UserStatus
  created_at : Nat
  updated_at : Nat
deriving DecidableEq

/-- The `User` response model of `models.py`: a document together with the
string form of its object id (`_id` is stringified before `User(**user_dict)`). -/
structure User where
  id : String
  name : String
  email : String
  age : Option Nat
  status : UserStatus
  created_at : Nat
  updated_at : Nat
deriving DecidableEq

/-- The `UserCreate` request model of `models.py`. -/
structure UserCreate where
  name : String
  email : String
  age : Option Nat
  status : UserStatus
deriving DecidableEq

/-- The `UserUpdate` request model of `models.py`; `some` marks a field that
is present in the patch (survives `model_dump` with unset fields excluded). -/
structure UserUpdate where
  name : Option String
  email : Option String
  age : Option Nat
  status : Option UserStatus
deriving DecidableEq

/-- Mirrors `if not update_dict` in `update_user`: the dumped patch is empty. -/
def UserUpdate.isEmptyPatch (u : UserUpdate) : Bool :=
  u.name.isNone && u.email.isNone && u.age.isNone && u.status.isNone

/-- The `users` collection: documents in insertion order plus the counter the
store uses to assign fresh object ids. -/
structure Store where
  docs : List (Nat × UserDoc)
  nextId : Nat

/-- Well-formedness the store guarantees for its assigned ids: ids are
pairwise distinct and below the fresh-id counter. -/
def Store.WF (st : Store) : Prop :=
  (st.docs.map Prod.fst).Nodup ∧ ∀ p ∈ st.docs, p.1 < st.nextId

/-- Decimal digits of `n`, least significant first (empty for `0`). -/
def digitsRev (n : Nat) : List Char :=
  if h : n = 0 then []
  else Nat.digitChar (n % 10) :: digitsRev (n / 10)
termination_by n
decreasing_by exact Nat.div_lt_self (Nat.pos_of_ne_zero h) (by omega)

/-- String form of an object id, as `str(result.inserted_id)` produces it:
the decimal rendering of the id (modelling the external bson codec). -/
def oidToString (n : Nat) : String :=
  if n = 0 then "0" else String.mk (digitsRev n).reverse

/-- `User(**user_dict)` after `user_dict["_id"] = str(oid)`: the response
record for a stored document. -/
def mkUser (oid : Nat) (d : UserDoc) : User :=
  ⟨oidToString oid, d.name, d.email, d.age, d.status, d.created_at, d.updated_at⟩

/-- `UserService.get_user_by_id` (`services.py`): `ObjectId(user_id)` raising
on a malformed id is caught by the surrounding `try`, so a parse failure —
like a missing document — yields `none`, never an exception. -/
def get_user_by_id (st : Store) (user_id : String) : Option User :=
  match user_id.toNat? with
  | none => none
  | some oid => (st.docs.find? (fun p => p.1 == oid)).map (fun p => mkUser p.1 p.2)

/-- `UserService.get_user_by_email` (`services.py`): `find_one` on the email
field, scanning in natural order. -/
def get_user_by_email (st : Store) (email : String) : Option User :=
  (st.docs.find? (fun p => p.2.email == email)).map (fun p => mkUser p.1 p.2)

/-- `UserService.create_user` (`services.py`): stamps `created_at` with one
`datetime.utcnow()` read (`t1`) and `updated_at` with a second, separate read
(`t2`), inserts the document, and returns it with its stringified id. -/
def create_user (st : Store) (input : UserCreate) (t1 t2 : Nat) : User × Store :=
  let doc : UserDoc := ⟨input.name, input.email, input.age, input.status, t1, t2⟩
  let oid := st.nextId
  (mkUser oid doc, ⟨st.docs ++ [(oid, doc)], oid + 1⟩)

/-- The `$set` document of `UserService.update_user`: the fields present in
the patch plus `updated_at = now`, applied to a stored document. -/
def applyPatch (d : UserDoc) (upd : UserUpdate) (now : Nat) : UserDoc :=
  ⟨upd.name.getD d.name, upd.email.getD d.email,
   match upd.age with
   | some a => some a
   | none => d.age,
   upd.status.getD d.status, d.created_at, now⟩

/-- `update_one` with `$set` on the first document whose `_id` matches. -/
def setDoc : List (Nat × UserDoc) → Nat → UserDoc → List (Nat × UserDoc)
  | [], _, _ => []
  | p :: rest, oid, d => if p.1 == oid then (p.1, d) :: rest else p :: setDoc rest oid d

/-- `delete_one` on the first document whose `_id` matches. -/
def eraseDoc : List (Nat × UserDoc) → Nat → List (Nat × UserDoc)
  | [], _ => []
  | p :: rest, oid => if p.1 == oid then rest else p :: eraseDoc rest oid

/-- `UserService.update_user` (`services.py`). An empty dumped patch returns
the current record without touching the store. Otherwise `ObjectId(user_id)`
is evaluated unguarded — a malformed id raises (`Except.error`). The store
reports `modified_count = 1` exactly when the `$set` changed the first
matching document; only then is the fresh record re-read, else `None`. -/
def service_update_user (st : Store) (user_id : String) (upd : UserUpdate) (now : Nat) :
    Except String (Option User × Store) :=
  if upd.isEmptyPatch then .ok (get_user_by_id st user_id, st)
  else
    match user_id.toNat? with
    | none => .error "bson InvalidId"
    | some oid =>
      match st.docs.find? (fun p => p.1 == oid) with
      | none => .ok (none, st)
      | some p =>
        let d2 := applyPatch p.2 upd now
        if d2 = p.2 then .ok (none, st)
        else
          let st2 : Store := ⟨setDoc st.docs oid d2, st.nextId⟩
          .ok (get_user_by_id st2 user_id, st2)

/-- `UserService.delete_user` (`services.py`): `ObjectId(user_id)` is
evaluated unguarded — a malformed id raises; `deleted_count` reports whether
a document was removed. -/
def service_delete_user (st : Store) (user_id : String) :
    Except String (Bool × Store) :=
  match user_id.toNat? with
  | none => .error "bson InvalidId"
  | some oid =>
    match st.docs.find? (fun p => p.1 == oid) with
    | none => .ok (false, st)
    | some _ => .ok (true, ⟨eraseDoc st.docs oid, st.nextId⟩)

/-- `UserService.list_users` (`services.py`): `find().skip(skip).limit(limit)`
in natural (insertion) order. -/
def list_users (st : Store) (skip limit : Nat) : List User :=
  ((st.docs.drop skip).take limit).map (fun p => mkUser p.1 p.2)

/-- `UserService.count_users` (`services.py`): `count_documents` over the
unfiltered collection, independent of any paging. -/
def count_users (st : Store) : Nat :=
  st.docs.length

/-- The dictionary `SystemService.health_check` builds. -/
structure HealthDict where
  status : String
  database : String
deriving DecidableEq

/-- `SystemService.health_check` (`services.py`). On probe success it returns
the healthy/connected dictionary. On probe failure the handler evaluates
`logger.error(...)`, but no `logger` is defined or imported in `services.py`,
so the handler itself raises `NameError` and the unhealthy/disconnected
return is unreachable: the probe-failure path is an escaping exception. -/
def health_check (probeOk : Bool) : Except String HealthDict :=
  if probeOk then .ok ⟨"healthy", "connected"⟩
  else .error "NameError: name logger is not defined"

/-- An `HTTPException` of the router, as a status code plus detail. -/
structure HttpError where
  code : Nat
  detail : String
deriving DecidableEq

/-- `create_user` endpoint (`app/routers.py`, POST `/api/users`): existence
pre-check by email, 409 without inserting when a record with the email is
already stored, else the service insert. -/
def router_create_user (st : Store) (input : UserCreate) (t1 t2 : Nat) :
    Except HttpError User × Store :=
  match get_user_by_email st input.email with
  | some _ => (.error ⟨409, "User with this email already exists"⟩, st)
  | none =>
    let r := create_user st input t1 t2
    (.ok r.1, r.2)

/-- `get_user` endpoint (`app/routers.py`, GET `/api/users/{user_id}`). -/
def router_get_user (st : Store) (user_id : String) : Except HttpError User :=
  match get_user_by_id st user_id with
  | none => .error ⟨404, "User not found"⟩
  | some u => .ok u

/-- `update_user` endpoint (`app/routers.py`, PUT `/api/users/{user_id}`):
existence pre-check via `get_user_by_id`, then the service update; a `None`
from the service becomes a 500. The outer `Except String` is an exception
escaping the endpoint. -/
def router_update_user (st : Store) (user_id : String) (upd : UserUpdate) (now : Nat) :
    Except String (Except HttpError User × Store) :=
  match get_user_by_id st user_id with
  | none => .ok (.error ⟨404, "User not found"⟩, st)
  | some _ =>
    match service_update_user st user_id upd now with
    | .error e => .error e
    | .ok (none, st2) => .ok (.error ⟨500, "Failed to update user"⟩, st2)
    | .ok (some u, st2) => .ok (.ok u, st2)

/-- `delete_user` endpoint (`app/routers.py`, DELETE `/api/users/{user_id}`):
existence pre-check via `get_user_by_id`, then the service delete; the
success payload is the confirmation message. -/
def router_delete_user (st : Store) (user_id : String) :
    Except String (Except HttpError String × Store) :=
  match get_user_by_id st user_id with
  | none => .ok (.error ⟨404, "User not found"⟩, st)
  | some _ =>
    match service_delete_user st user_id with
    | .error e => .error e
    | .ok (false, st2) => .ok (.error ⟨500, "Failed to delete user"⟩, st2)
    | .ok (true, st2) => .ok (.ok "User deleted successfully", st2)

/-- `PaginationInfo` response model (`models.py`). -/
structure PaginationInfo where
  page : Nat
  limit : Nat
  total : Nat
  pages : Nat
deriving DecidableEq

/-- `UserListResponse` response model (`models.py`). -/
structure UserListResponse where
  users : List User
  pagination : PaginationInfo
deriving DecidableEq

/-- `list_users` endpoint (`app/routers.py`, GET `/api/users`): FastAPI
validates the query bounds (`page ≥ 1`, `1 ≤ limit ≤ 100`) before the
handler runs, answering 422 otherwise; the handler computes
`skip = (page - 1) * limit` and `pages = (total + limit - 1) / limit`. -/
def router_list_users (st : Store) (page limit : Nat) :
    Except HttpError UserListResponse :=
  if page < 1 ∨ limit < 1 ∨ 100 < limit then
    .error ⟨422, "Validation error"⟩
  else
    let skip := (page - 1) * limit
    let users := list_users st skip limit
    let total := count_users st
    .ok ⟨users, ⟨page, limit, total, (total + limit - 1) / limit⟩⟩

/-- `health_check` endpoint (`app/routers.py`, GET `/health`): a healthy
dictionary is returned as-is, any other dictionary becomes a 503; an
exception raised by the service escapes the endpoint. -/
def router_health_check (probeOk : Bool) :
    Except String (Except HttpError HealthDict) :=
  match health_check probeOk with
  | .error e => .error e
  | .ok h => if h.status = "healthy" then .ok (.ok h) else .ok (.error ⟨503, "Service is unhealthy"⟩)

/-- The uniform error envelope of `middleware.py` and `main.py`. -/
structure ErrorBody where
  error : String
  detail : String
deriving DecidableEq

/-- A response as the fault-containment stage sees it: a downstream response
passed through, or the JSON error envelope it builds itself. -/
inductive Response where
  | passed (code : Nat) (body : String)
  | enveloped (code : Nat) (body : ErrorBody)
deriving DecidableEq

/-- `ErrorHandlingMiddleware.dispatch` (`app/middleware.py`): the downstream
result is returned unchanged; any escaping exception is converted into the
constant 500 envelope, independent of the exception text. -/
def errorHandlingDispatch (downstream : Except String Response) : Response :=
  match downstream with
  | .ok r => r
  | .error _ => .enveloped 500 ⟨"Internal server error", "An unexpected error occurred"⟩

/-- `global_exception_handler` (`app/main.py`): the same constant envelope
for any exception reaching the application-level handler. -/
def global_exception_handler (_exc : String) : Response :=
  .enveloped 500 ⟨"Internal server error", "An unexpected error occurred"⟩

/-- The empty collection at process start. -/
def st0 : Store :=
  ⟨[], 0⟩

/-- A concrete stored document (the end-to-end scenario user). -/
def annDoc : UserDoc :=
  ⟨"Ann", "ann@x.com", none, .active, 0, 0⟩

/-- A store holding exactly the document `annDoc` under id `0`. -/
def stAnn : Store :=
  ⟨[(0, annDoc)], 1⟩

/-- A creation input matching `annDoc`. -/
def annInput : UserCreate :=
  ⟨"Ann", "ann@x.com", none, .active⟩

/-- A creation input with a fresh email. -/
def bobInput : UserCreate :=
  ⟨"Bob", "bob@x.com", some 30, .active⟩

/-- The patch with no fields set: what an empty request body dumps to. -/
def emptyPatch : UserUpdate :=
  ⟨none, none, none, none⟩

/-- The patch setting only `status` to `suspended`. -/
def suspendPatch : UserUpdate :=
  ⟨none, none, none, some .suspended⟩

/-- A store with three documents (the pagination scenario). -/
def stThree : Store :=
  ⟨[(0, annDoc), (1, ⟨"Bob", "bob@x.com", some 30, .active, 1, 1⟩),
    (2, ⟨"Cat", "cat@x.com", none, .inactive, 2, 2⟩)], 3⟩

theorem isDigit_digitChar : ∀ d, d < 10 → (Nat.digitChar d).isDigit = true := by
  decide

theorem toNat_digitChar : ∀ d, d < 10 → (Nat.digitChar d).toNat - Char.toNat (Char.ofNat 48) = d := by
  decide

theorem digitsRev_all_isDigit (n : Nat) : ∀ c ∈ digitsRev n, c.isDigit = true := by
  induction n using Nat.strong_induction_on with
  | _ n ih =>
    intro c hc
    rw [digitsRev] at hc
    by_cases h : n = 0
    · simp [h] at hc
    · simp only [h, dite_false] at hc
      rcases List.mem_cons.1 hc with h1 | h1
      · subst h1
        exact isDigit_digitChar _ (Nat.mod_lt _ (by omega))
      · exact ih (n / 10) (Nat.div_lt_self (Nat.pos_of_ne_zero h) (by omega)) c h1

theorem digitsRev_ne_nil (n : Nat) (h : n ≠ 0) : digitsRev n ≠ [] := by
  rw [digitsRev]
  simp [h]

theorem foldl_digitsRev (n : Nat) : ∀ a : Nat,
    ((digitsRev n).reverse).foldl (fun m c => m * 10 + (c.toNat - Char.toNat (Char.ofNat 48))) a
      = a * 10 ^ (digitsRev n).length + n := by
  induction n using Nat.strong_induction_on with
  | _ n ih =>
    intro a
    rw [digitsRev]
    by_cases h : n = 0
    · simp [h]
    · simp only [h, dite_false, List.reverse_cons, List.foldl_append, List.foldl_cons,
        List.foldl_nil, List.length_cons]
      rw [ih (n / 10) (Nat.div_lt_self (Nat.pos_of_ne_zero h) (by omega)) a]
      rw [toNat_digitChar _ (Nat.mod_lt _ (by omega))]
      rw [pow_succ]
      have hk : a * (10 ^ (digitsRev (n / 10)).length * 10)
          = a * 10 ^ (digitsRev (n / 10)).length * 10 := by ring
      rw [hk]
      generalize a * 10 ^ (digitsRev (n / 10)).length = t
      omega

/-- List-level restatement of `String.toNat?`, usable both on string literals
and on strings built from explicit character lists. -/
theorem toNat?_eq_list (s : String) :
    s.toNat? = if !s.isEmpty && s.data.all Char.isDigit
      then some (s.data.foldl (fun m c => m * 10 + (c.toNat - Char.toNat (Char.ofNat 48))) 0)
      else none := by
  rw [String.toNat?, String.isNat, String.all_eq, String.foldl_eq]

/-- The decimal codec round-trips: parsing the string form of an id with
`String.toNat?` (the model of `ObjectId(s)`) recovers the id. -/
theorem toNat?_oidToString (n : Nat) : (oidToString n).toNat? = some n := by
  by_cases h : n = 0
  · subst h
    rw [oidToString]
    simp only [if_true]
    rw [toNat?_eq_list]
    decide
  · rw [oidToString]
    simp only [h, ite_false]
    rw [toNat?_eq_list]
    have hall : (String.mk (digitsRev n).reverse).data.all Char.isDigit = true :=
      List.all_eq_true.2 fun c hc => digitsRev_all_isDigit n c (List.mem_reverse.1 hc)
    have hne : (String.mk (digitsRev n).reverse).isEmpty = false := by
      rw [Bool.eq_false_iff]
      intro h1
      have h2 := (String.isEmpty_iff _).1 h1
      exact digitsRev_ne_nil n h (List.reverse_eq_nil_iff.1 (congrArg String.data h2))
    simp only [hne, hall, Bool.not_false, Bool.and_self, if_true]
    have h4 := foldl_digitsRev n 0
    simp only [Nat.zero_mul, Nat.zero_add] at h4
    exact congrArg some h4

theorem get_user_by_id_oid (st : Store) (oid : Nat) :
    get_user_by_id st (oidToString oid)
      = (st.docs.find? (fun p => p.1 == oid)).map (fun p => mkUser p.1 p.2) := by
  rw [get_user_by_id, toNat?_oidToString]

theorem find?_insert_fresh (docs : List (Nat × UserDoc)) (nid : Nat) (d : UserDoc)
    (hfresh : ∀ p ∈ docs, p.1 < nid) :
    (docs ++ [(nid, d)]).find? (fun p => p.1 == nid) = some (nid, d) := by
  rw [List.find?_append,
    List.find?_eq_none.2 (fun p hp => by
      simp only [beq_iff_eq]
      exact Nat.ne_of_lt (hfresh p hp)),
    Option.none_or, List.find?_cons_of_pos _ (by simp)]

theorem find?_setDoc_self (oid : Nat) (d d2 : UserDoc) (docs : List (Nat × UserDoc)) :
    docs.find? (fun p => p.1 == oid) = some (oid, d) →
    (setDoc docs oid d2).find? (fun p => p.1 == oid) = some (oid, d2) := by
  induction docs with
  | nil => intro h; simp at h
  | cons q rest ih =>
    intro h
    by_cases hq : q.1 = oid
    · subst hq
      simp only [setDoc]
      rw [if_pos (by simp)]
      exact List.find?_cons_of_pos _ (by simp)
    · rw [List.find?_cons_of_neg _ (by simp [hq])] at h
      simp only [setDoc]
      rw [if_neg (by simp [hq]), List.find?_cons_of_neg _ (by simp [hq])]
      exact ih h

theorem mem_setDoc_of_ne (oid : Nat) (d2 : UserDoc) (docs : List (Nat × UserDoc))
    (q : Nat × UserDoc) (hne : q.1 ≠ oid) :
    q ∈ docs → q ∈ setDoc docs oid d2 := by
  induction docs with
  | nil => intro h; simp at h
  | cons r rest ih =>
    intro h
    rcases List.mem_cons.1 h with h1 | h1
    · subst h1
      simp only [setDoc]
      rw [if_neg (by simp [hne])]
      exact List.mem_cons_self _ _
    · by_cases hr : r.1 = oid
      · subst hr
        simp only [setDoc]
        rw [if_pos (by simp)]
        exact List.mem_cons_of_mem _ h1
      · simp only [setDoc]
        rw [if_neg (by simp [hr])]
        exact List.mem_cons_of_mem _ (ih h1)

theorem find?_eraseDoc_none (oid : Nat) (docs : List (Nat × UserDoc))
    (hnd : (docs.map Prod.fst).Nodup) :
    (eraseDoc docs oid).find? (fun p => p.1 == oid) = none := by
  induction docs with
  | nil => simp [eraseDoc]
  | cons q rest ih =>
    have hnd1 : q.1 ∉ rest.map Prod.fst := (List.nodup_cons.1 hnd).1
    have hnd2 : (rest.map Prod.fst).Nodup := (List.nodup_cons.1 hnd).2
    by_cases hq : q.1 = oid
    · subst hq
      simp only [eraseDoc]
      rw [if_pos (by simp)]
      rw [List.find?_eq_none]
      intro p hp hpe
      have hp1 : p.1 = q.1 := by simpa using hpe
      apply hnd1
      rw [← hp1]
      exact List.mem_map_of_mem Prod.fst hp
    · simp only [eraseDoc]
      rw [if_neg (by simp [hq]), List.find?_cons_of_neg _ (by simp [hq])]
      exact ih hnd2

/-- Claim C1: a create request whose email equals a stored email is answered
with 409 Conflict by the explicit pre-check of the endpoint, the store left
unchanged (no insert); a create whose email matches no stored record succeeds
and the returned record carries the input email. -/
theorem create_email_uniqueness (st : Store) (input : UserCreate) (t1 t2 : Nat) :
    ((∃ p ∈ st.docs, p.2.email = input.email) →
      router_create_user st input t1 t2
        = (.error ⟨409, "User with this email already exists"⟩, st))
    ∧ ((∀ p ∈ st.docs, p.2.email ≠ input.email) →
      ∃ u st2, router_create_user st input t1 t2 = (.ok u, st2)
        ∧ u.email = input.email) := by
  constructor
  · rintro ⟨p, hp, he⟩
    have h1 : (st.docs.find? (fun q => q.2.email == input.email)).isSome :=
      List.find?_isSome.2 ⟨p, hp, by simp [he]⟩
    cases hf : st.docs.find? (fun q => q.2.email == input.email) with
    | none => rw [hf] at h1; simp at h1
    | some q =>
      rw [router_create_user, get_user_by_email, hf]
      rfl
  · intro hall
    have h1 : st.docs.find? (fun q => q.2.email == input.email) = none :=
      List.find?_eq_none.2 (fun q hq => by simpa using hall q hq)
    rw [router_create_user, get_user_by_email, h1]
    exact ⟨_, _, rfl, rfl⟩

theorem create_email_uniqueness_witness :
    router_create_user stAnn annInput 0 0
      = (.error ⟨409, "User with this email already exists"⟩, stAnn)
    ∧ ∃ u st2, router_create_user stAnn bobInput 0 0 = (.ok u, st2)
        ∧ u.email = "bob@x.com" := by
  constructor
  · exact (create_email_uniqueness stAnn annInput 0 0).1
      ⟨(0, annDoc), by simp [stAnn], rfl⟩
  · exact (create_email_uniqueness stAnn bobInput 0 0).2
      (by intro p hp; simp [stAnn] at hp; subst hp; decide)

/-- Claim C3: an identifier string that is not in the store id format makes
`get_user_by_id` return `none` (the caught `InvalidId` path, not a raised
exception: the embedding of the lookup is total) and the endpoint answer 404. -/
theorem invalid_id_is_not_found (st : Store) (user_id : String)
    (hbad : user_id.toNat? = none) :
    get_user_by_id st user_id = none
    ∧ router_get_user st user_id = .error ⟨404, "User not found"⟩ := by
  have h1 : get_user_by_id st user_id = none := by
    rw [get_user_by_id, hbad]
  exact ⟨h1, by rw [router_get_user, h1]⟩

theorem invalid_id_is_not_found_witness :
    get_user_by_id stAnn "doesnotexist" = none
    ∧ router_get_user stAnn "doesnotexist" = .error ⟨404, "User not found"⟩ :=
  invalid_id_is_not_found stAnn "doesnotexist" (by rw [toNat?_eq_list]; decide)

/-- Claim C5: an update whose dumped patch has no fields returns the current
record as-is and leaves the store untouched — no write happens and
`updated_at` keeps its prior value. -/
theorem update_empty_patch (st : Store) (user_id : String) (u : User) (now : Nat)
    (hget : get_user_by_id st user_id = some u) :
    service_update_user st user_id emptyPatch now = .ok (some u, st) := by
  rw [service_update_user]
  simp [emptyPatch, UserUpdate.isEmptyPatch, hget]

theorem update_empty_patch_witness :
    service_update_user stAnn "0" emptyPatch 5 = .ok (some (mkUser 0 annDoc), stAnn) := by
  apply update_empty_patch
  have h0 : ("0" : String).toNat? = some 0 := toNat?_oidToString 0
  rw [get_user_by_id, h0]
  rfl

/-- Claim C8: an exception escaping the router is converted by the
fault-containment stage into status 500 with exactly the uniform envelope,
whatever the exception text was — the raw fault text cannot appear in the
response because the envelope is a constant; the application-level handler
emits the same envelope. -/
theorem fault_containment (msg : String) :
    errorHandlingDispatch (.error msg)
      = .enveloped 500 ⟨"Internal server error", "An unexpected error occurred"⟩
    ∧ global_exception_handler msg
      = .enveloped 500 ⟨"Internal server error", "An unexpected error occurred"⟩ :=
  ⟨rfl, rfl⟩

/-- Claim C2 (code bug): on probe success `health_check` returns the
healthy/connected dictionary, but on probe failure its handler evaluates
`logger.error` although `services.py` defines no `logger`, so the call
raises `NameError` instead of returning unhealthy/disconnected, and the
exception escapes through the `/health` endpoint: the claimed
never-raises/503 behaviour is unreachable. -/
theorem health_check_probe_failure :
    health_check true = .ok ⟨"healthy", "connected"⟩
    ∧ health_check false = .error "NameError: name logger is not defined"
    ∧ router_health_check false = .error "NameError: name logger is not defined" :=
  ⟨rfl, rfl, rfl⟩

/-- Claim C7: for in-range paging parameters the list endpoint applies
`skip = (page - 1) * limit`, returns at most `limit` records, reports the
total independent of paging, and `pages` is the ceiling division of the
total by `limit`. -/
theorem list_pagination (st : Store) (page limit : Nat)
    (hp : 1 ≤ page) (hl1 : 1 ≤ limit) (hl2 : limit ≤ 100) :
    ∃ resp, router_list_users st page limit = .ok resp
      ∧ resp.users = list_users st ((page - 1) * limit) limit
      ∧ resp.users.length ≤ limit
      ∧ resp.pagination.total = count_users st
      ∧ resp.pagination.pages = count_users st ⌈/⌉ limit := by
  rw [router_list_users, if_neg (by omega)]
  refine ⟨_, rfl, rfl, ?_, rfl, ?_⟩
  · rw [list_users, List.length_map, List.length_take]
    exact Nat.min_le_left _ _
  · rw [Nat.ceilDiv_eq_add_pred_div]

theorem list_pagination_witness :
    ∃ resp, router_list_users stThree 1 2 = .ok resp
      ∧ resp.users = list_users stThree 0 2
      ∧ resp.users.length ≤ 2
      ∧ resp.pagination.total = count_users stThree
      ∧ resp.pagination.pages = count_users stThree ⌈/⌉ 2 :=
  list_pagination stThree 1 2 (by decide) (by decide) (by decide)

theorem get_user_by_id_eq_some (st : Store) (user_id : String) (u : User) :
    get_user_by_id st user_id = some u →
    ∃ oid pr, user_id.toNat? = some oid
      ∧ st.docs.find? (fun p => p.1 == oid) = some pr
      ∧ u = mkUser pr.1 pr.2 := by
  intro h
  cases htn : user_id.toNat? with
  | none =>
    simp only [get_user_by_id, htn] at h
    exact Option.noConfusion h
  | some oid =>
    simp only [get_user_by_id, htn] at h
    cases hf : st.docs.find? (fun p => p.1 == oid) with
    | none => rw [hf] at h; simp at h
    | some pr =>
      rw [hf] at h
      exact ⟨oid, pr, rfl, hf, (Option.some.inj h).symm⟩

/-- Claim C4 (counterexample): a successful create on the empty store during
which the clock advances between the two timestamp reads (`utcnow` returning
0 then 1) yields a record that an immediate `getById` returns intact, but
whose `created_at` differs from its `updated_at`: the code stamps the two
fields with two separate clock reads, so their equality is not guaranteed. -/
theorem create_timestamps_counterexample :
    (router_create_user st0 annInput 0 1).1 = .ok (create_user st0 annInput 0 1).1
    ∧ get_user_by_id (create_user st0 annInput 0 1).2 (create_user st0 annInput 0 1).1.id
        = some (create_user st0 annInput 0 1).1
    ∧ (create_user st0 annInput 0 1).1.created_at
        ≠ (create_user st0 annInput 0 1).1.updated_at := by
  refine ⟨rfl, ?_, by decide⟩
  show get_user_by_id (create_user st0 annInput 0 1).2 (oidToString 0)
      = some (create_user st0 annInput 0 1).1
  rw [get_user_by_id_oid]
  rfl

/-- Claim C4 (amended): for any well-formed store, a create followed
immediately by `getById` on the returned id yields exactly the created
record — same id and field values; `created_at` and `updated_at` carry the
two successive clock reads of creation, so under a monotone clock
`created_at ≤ updated_at`, with equality only when the clock did not advance
between the two reads. -/
theorem create_then_get_amended (st : Store) (input : UserCreate) (t1 t2 : Nat)
    (hwf : st.WF) (hmono : t1 ≤ t2) :
    get_user_by_id (create_user st input t1 t2).2 (create_user st input t1 t2).1.id
      = some (create_user st input t1 t2).1
    ∧ (create_user st input t1 t2).1.created_at = t1
    ∧ (create_user st input t1 t2).1.updated_at = t2
    ∧ (create_user st input t1 t2).1.created_at
        ≤ (create_user st input t1 t2).1.updated_at := by
  refine ⟨?_, rfl, rfl, hmono⟩
  show get_user_by_id (create_user st input t1 t2).2 (oidToString st.nextId)
      = some (create_user st input t1 t2).1
  rw [get_user_by_id_oid]
  show ((st.docs
      ++ [(st.nextId, (⟨input.name, input.email, input.age, input.status, t1, t2⟩ : UserDoc))]).find?
      (fun p => p.1 == st.nextId)).map (fun p => mkUser p.1 p.2)
    = some (create_user st input t1 t2).1
  rw [find?_insert_fresh st.docs st.nextId _ hwf.2]
  rfl

theorem create_then_get_amended_witness :
    get_user_by_id (create_user stAnn bobInput 5 6).2 (create_user stAnn bobInput 5 6).1.id
      = some (create_user stAnn bobInput 5 6).1
    ∧ (create_user stAnn bobInput 5 6).1.created_at = 5
    ∧ (create_user stAnn bobInput 5 6).1.updated_at = 6
    ∧ (create_user stAnn bobInput 5 6).1.created_at
        ≤ (create_user stAnn bobInput 5 6).1.updated_at :=
  create_then_get_amended stAnn bobInput 5 6
    (by unfold Store.WF; exact ⟨by decide, by decide⟩) (by decide)

/-- Claim C6: updating an existing record with a non-empty patch rewrites
exactly the fields present in the patch (absent fields, `created_at`
included, keep their prior values), leaves every other record in place, and
sets `updated_at` to the update clock read — strictly later than the prior
`updated_at` under the monotone-clock hypothesis that the clock advanced
past it. -/
theorem update_patch_fields (st : Store) (oid : Nat) (d : UserDoc) (upd : UserUpdate) (now : Nat)
    (hne : upd.isEmptyPatch = false)
    (hfind : st.docs.find? (fun p => p.1 == oid) = some (oid, d))
    (hclock : d.updated_at < now) :
    ∃ u st2, service_update_user st (oidToString oid) upd now = .ok (some u, st2)
      ∧ u.name = upd.name.getD d.name
      ∧ u.email = upd.email.getD d.email
      ∧ u.age = (match upd.age with | some a => some a | none => d.age)
      ∧ u.status = upd.status.getD d.status
      ∧ u.created_at = d.created_at
      ∧ u.updated_at = now
      ∧ d.updated_at < u.updated_at
      ∧ ∀ q ∈ st.docs, q.1 ≠ oid → q ∈ st2.docs := by
  have hd2 : applyPatch d upd now ≠ d := by
    intro h
    have h2 := congrArg UserDoc.updated_at h
    simp only [applyPatch] at h2
    omega
  have hg : get_user_by_id ⟨setDoc st.docs oid (applyPatch d upd now), st.nextId⟩ (oidToString oid)
      = some (mkUser oid (applyPatch d upd now)) := by
    rw [get_user_by_id_oid]
    show ((setDoc st.docs oid (applyPatch d upd now)).find? (fun p => p.1 == oid)).map
        (fun p => mkUser p.1 p.2)
      = some (mkUser oid (applyPatch d upd now))
    rw [find?_setDoc_self oid d _ st.docs hfind]
    rfl
  refine ⟨mkUser oid (applyPatch d upd now),
    ⟨setDoc st.docs oid (applyPatch d upd now), st.nextId⟩,
    ?_, rfl, rfl, rfl, rfl, rfl, rfl, hclock, ?_⟩
  · rw [service_update_user, if_neg (by simp [hne])]
    simp only [toNat?_oidToString, hfind]
    rw [if_neg hd2, hg]
  · intro q hq hqne
    exact mem_setDoc_of_ne oid _ st.docs q hqne hq

theorem update_patch_fields_witness :
    ∃ u st2, service_update_user stAnn (oidToString 0) suspendPatch 5 = .ok (some u, st2)
      ∧ u.name = suspendPatch.name.getD annDoc.name
      ∧ u.email = suspendPatch.email.getD annDoc.email
      ∧ u.age = (match suspendPatch.age with | some a => some a | none => annDoc.age)
      ∧ u.status = suspendPatch.status.getD annDoc.status
      ∧ u.created_at = annDoc.created_at
      ∧ u.updated_at = 5
      ∧ annDoc.updated_at < u.updated_at
      ∧ ∀ q ∈ stAnn.docs, q.1 ≠ 0 → q ∈ st2.docs :=
  update_patch_fields stAnn 0 annDoc suspendPatch 5 rfl rfl (by decide)

/-- Claim C9: deleting an id that does not resolve answers 404 from the
pre-check with the store unchanged; deleting a resolving id removes the
record and confirms success, and a subsequent `getById` of the same id
returns `NotFound`. -/
theorem delete_then_get (st : Store) (user_id : String) :
    (get_user_by_id st user_id = none →
      router_delete_user st user_id = .ok (.error ⟨404, "User not found"⟩, st))
    ∧ (st.WF → ∀ u, get_user_by_id st user_id = some u →
      ∃ st2, router_delete_user st user_id = .ok (.ok "User deleted successfully", st2)
        ∧ get_user_by_id st2 user_id = none) := by
  constructor
  · intro h
    rw [router_delete_user, h]
  · intro hwf u hget
    obtain ⟨oid, pr, htn, hf, hu⟩ := get_user_by_id_eq_some st user_id u hget
    refine ⟨⟨eraseDoc st.docs oid, st.nextId⟩, ?_, ?_⟩
    · simp only [router_delete_user, hget, service_delete_user, htn, hf]
    · simp only [get_user_by_id, htn]
      rw [find?_eraseDoc_none oid st.docs hwf.1]
      rfl

theorem delete_then_get_witness :
    router_delete_user stAnn "doesnotexist" = .ok (.error ⟨404, "User not found"⟩, stAnn)
    ∧ ∃ st2, router_delete_user stAnn (oidToString 0) = .ok (.ok "User deleted successfully", st2)
        ∧ get_user_by_id st2 (oidToString 0) = none := by
  constructor
  · refine (delete_then_get stAnn "doesnotexist").1 ?_
    rw [get_user_by_id, show ("doesnotexist" : String).toNat? = none from by
      rw [toNat?_eq_list]; decide]
  · refine (delete_then_get stAnn (oidToString 0)).2
      (by unfold Store.WF; exact ⟨by decide, by decide⟩) (mkUser 0 annDoc) ?_
    rw [get_user_by_id_oid]
    rfl

/-- Claim C10: a PUT or DELETE whose id string is not in the store id format
is answered 404 by the existence pre-check of the router (the lookup treats
the malformed id as absent), with the store unchanged, before the service
layer is invoked — while calling the service update or delete directly on
that id would raise the unguarded `ObjectId` conversion failure. -/
theorem malformed_id_guarded (st : Store) (user_id : String) (upd : UserUpdate) (now : Nat)
    (hbad : user_id.toNat? = none) (hne : upd.isEmptyPatch = false) :
    router_update_user st user_id upd now = .ok (.error ⟨404, "User not found"⟩, st)
    ∧ router_delete_user st user_id = .ok (.error ⟨404, "User not found"⟩, st)
    ∧ service_update_user st user_id upd now = .error "bson InvalidId"
    ∧ service_delete_user st user_id = .error "bson InvalidId" := by
  have hget : get_user_by_id st user_id = none := by
    rw [get_user_by_id, hbad]
  refine ⟨?_, ?_, ?_, ?_⟩
  · rw [router_update_user, hget]
  · rw [router_delete_user, hget]
  · rw [service_update_user, if_neg (by simp [hne]), hbad]
  · rw [service_delete_user, hbad]

theorem malformed_id_guarded_witness :
    router_update_user stAnn "doesnotexist" suspendPatch 5
      = .ok (.error ⟨404, "User not found"⟩, stAnn)
    ∧ router_delete_user stAnn "doesnotexist" = .ok (.error ⟨404, "User not found"⟩, stAnn)
    ∧ service_update_user stAnn "doesnotexist" suspendPatch 5 = .error "bson InvalidId"
    ∧ service_delete_user stAnn "doesnotexist" = .error "bson InvalidId" :=
  malformed_id_guarded stAnn "doesnotexist" suspendPatch 5
    (by rw [toNat?_eq_list]; decide) rfl
